import Mathlib

/-
Verification of the budget-management web application (creator-reactor).

The development shallowly embeds the client-side logic of the repository:
the dashboard aggregations (src/src/pages/Dashboard.tsx and the alternative
dashboard variant), the group-by fallbacks, the form submit handlers, the
mutation success and error paths, and the avatar upload sequence.

Monetary amounts (JavaScript numbers holding decimal values) are modelled
as integers: every property asserted about them (grouping, summation,
subtraction) is independent of the numeric carrier, and integers keep all
definitions kernel-evaluable.  Rationals appear only in the model of the
parseFloat builtin, whose fractional output two claims inspect structurally.
JavaScript plain objects used as accumulators are modelled
as insertion-ordered association lists, which matches the enumeration
order of Object.keys / Object.entries for non-integer string keys.
-/

namespace CreatorReactor

/-! ## JavaScript primitives -/

/-- Value of the digit list read in base 10 (the digits of a numeric literal). -/
def digitsToNat (ds : List Char) : ℕ :=
  ds.foldl (fun n c => 10 * n + (c.toNat - 48)) 0

/-- Models the JavaScript builtin parseFloat on the decimal literals produced by
the application's number inputs: optional leading spaces, optional sign, an
integer part and an optional fractional part.  none models NaN (no digits at
all, e.g. the empty string). -/
def jsParseFloat (s : String) : Option ℚ :=
  let cs := s.toList.dropWhile (fun c => c = ' ')
  let signed : ℚ × List Char :=
    match cs with
    | c :: rest =>
        if c = '-' then (-1, rest) else if c = '+' then (1, rest) else (1, cs)
    | [] => (1, cs)
  let intPart := signed.2.takeWhile Char.isDigit
  let afterInt := signed.2.dropWhile Char.isDigit
  let fracPart : List Char :=
    match afterInt with
    | '.' :: rest => rest.takeWhile Char.isDigit
    | _ => []
  if intPart = [] ∧ fracPart = [] then none
  else
    some (signed.1 *
      ((digitsToNat intPart : ℚ) + (digitsToNat fracPart : ℚ) / (10 : ℚ) ^ fracPart.length))

/-- Models the JavaScript expression `x || d` for a numeric `x` that may be
absent (undefined) or NaN, both modelled as none; a present 0 is falsy and
also yields the default. -/
def jsNumOr {R : Type} [Zero R] [DecidableEq R] (o : Option R) (d : R) : R :=
  match o with
  | none => d
  | some x => if x = 0 then d else x

/-- Models the JavaScript expression `s || d` for a string that may be absent
(null / undefined); a present empty string is falsy and yields the default. -/
def jsStrOr (o : Option String) (d : String) : String :=
  match o with
  | none => d
  | some s => if s = "" then d else s

@[simp] lemma jsNumOr_none {R : Type} [Zero R] [DecidableEq R] (d : R) :
    jsNumOr none d = d := rfl

@[simp] lemma jsNumOr_some_zero {R : Type} [Zero R] [DecidableEq R] (t : R) :
    jsNumOr (some t) 0 = t := by
  by_cases h : t = 0 <;> simp [jsNumOr, h]

/-! ## JavaScript plain objects as insertion-ordered association lists -/

section JsRecord

variable {α β : Type}

/-- The keys of a record, in insertion order (the order of Object.keys). -/
def recordKeys (m : List (String × β)) : List String := m.map Prod.fst

/-- Value stored under a key: the first entry with that key, if any. -/
def lookupFirst : List (String × β) → String → Option β
  | [], _ => none
  | p :: m, k => if p.1 = k then some p.2 else lookupFirst m k

/-- Models the assignment `m[k] = f(m[k])` on a JavaScript object: an existing
key keeps its position and gets the updated value, a fresh key is appended
(insertion order). -/
def recordUpdate (m : List (String × β)) (k : String) (f : Option β → β) :
    List (String × β) :=
  if k ∈ recordKeys m then
    m.map (fun p => if p.1 = k then (p.1, f (some p.2)) else p)
  else
    m ++ [(k, f none)]

/-- The repeated JavaScript idiom of the dashboards: iterate the rows once,
updating an object entry per key, then list the entries.  `f old row` is the
value written for `row` when the entry previously held `old` (none when the
key was absent). -/
def objectGroupBy (key : α → String) (f : Option β → α → β) (rows : List α) :
    List (String × β) :=
  rows.foldl (fun m r => recordUpdate m (key r) (fun o => f o r)) []

/-- The distinct keys of the rows in first-occurrence order: exactly the key
set and order produced by the object-accumulator idiom. -/
def distinctKeys (key : α → String) (rows : List α) : List String :=
  rows.foldl (fun acc r => if key r ∈ acc then acc else acc ++ [key r]) []

/-- Folding `f` through the rows of one group, starting from an absent entry. -/
def groupAcc (f : Option β → α → β) (o : Option β) (group : List α) : Option β :=
  group.foldl (fun acc r => some (f acc r)) o

lemma lookupFirst_map_update (m : List (String × β)) (k : String)
    (f : Option β → β) (q : String) :
    lookupFirst (m.map (fun p => if p.1 = k then (p.1, f (some p.2)) else p)) q =
      if q = k then (lookupFirst m k).map (fun v => f (some v)) else lookupFirst m q := by
  induction m with
  | nil => simp [lookupFirst]
  | cons p m ih =>
    by_cases hpk : p.1 = k
    · by_cases hpq : p.1 = q
      · have hqk : q = k := by rw [← hpq, hpk]
        simp [lookupFirst, hpk, hpq, hqk]
      · have hqk : ¬ q = k := fun h => hpq (by rw [hpk, h])
        simp only [List.map_cons, if_pos hpk, lookupFirst, if_neg hpq, ih,
          if_neg hqk]
    · by_cases hpq : p.1 = q
      · have hqk : ¬ q = k := fun h => hpk (by rw [hpq, h])
        simp [lookupFirst, hpk, hpq, hqk]
      · simp only [List.map_cons, if_neg hpk, lookupFirst, if_neg hpq, ih]

lemma lookupFirst_append (m l : List (String × β)) (k : String) :
    lookupFirst (m ++ l) k =
      match lookupFirst m k with
      | some v => some v
      | none => lookupFirst l k := by
  induction m with
  | nil => simp [lookupFirst]
  | cons p m ih =>
    by_cases h : p.1 = k <;> simp [lookupFirst, h, ih]

lemma lookupFirst_eq_none_iff (m : List (String × β)) (k : String) :
    lookupFirst m k = none ↔ k ∉ recordKeys m := by
  induction m with
  | nil => simp [lookupFirst, recordKeys]
  | cons p m ih =>
    by_cases h : p.1 = k <;>
      simp [lookupFirst, recordKeys, h, ih, eq_comm (a := k) (b := p.1)]

lemma mem_recordKeys_iff_lookup (m : List (String × β)) (k : String) :
    k ∈ recordKeys m ↔ ∃ v, lookupFirst m k = some v := by
  constructor
  · intro h
    cases hv : lookupFirst m k with
    | none => exact absurd ((lookupFirst_eq_none_iff m k).mp hv) (not_not_intro h)
    | some v => exact ⟨v, rfl⟩
  · rintro ⟨v, hv⟩
    by_contra hk
    rw [(lookupFirst_eq_none_iff m k).mpr hk] at hv
    exact Option.noConfusion hv

lemma lookupFirst_recordUpdate (m : List (String × β)) (k : String)
    (f : Option β → β) (q : String) :
    lookupFirst (recordUpdate m k f) q =
      if q = k then some (f (lookupFirst m k)) else lookupFirst m q := by
  unfold recordUpdate
  by_cases hmem : k ∈ recordKeys m
  · rw [if_pos hmem, lookupFirst_map_update]
    obtain ⟨v, hv⟩ := (mem_recordKeys_iff_lookup m k).mp hmem
    rw [hv]
    by_cases hqk : q = k <;> simp [hqk]
  · rw [if_neg hmem, lookupFirst_append]
    have hnone : lookupFirst m k = none := (lookupFirst_eq_none_iff m k).mpr hmem
    by_cases hqk : q = k
    · subst hqk
      rw [hnone]
      simp [lookupFirst, hnone]
    · cases hq : lookupFirst m q with
      | some v => simp [hq, hqk]
      | none =>
        have : ¬ k = q := fun h => hqk h.symm
        simp [hq, hqk, lookupFirst, this]

lemma recordKeys_map_update (m : List (String × β)) (k : String)
    (f : Option β → β) :
    recordKeys (m.map (fun p => if p.1 = k then (p.1, f (some p.2)) else p)) =
      recordKeys m := by
  simp only [recordKeys, List.map_map]
  congr 1
  funext p
  by_cases h : p.1 = k <;> simp [h]

lemma recordKeys_recordUpdate (m : List (String × β)) (k : String)
    (f : Option β → β) :
    recordKeys (recordUpdate m k f) =
      if k ∈ recordKeys m then recordKeys m else recordKeys m ++ [k] := by
  unfold recordUpdate
  by_cases h : k ∈ recordKeys m
  · rw [if_pos h, if_pos h, recordKeys_map_update]
  · rw [if_neg h, if_neg h]
    simp [recordKeys]

lemma nodup_recordUpdate {β : Type} {m : List (String × β)} {k : String}
    {f : Option β → β} (h : (recordKeys m).Nodup) :
    (recordKeys (recordUpdate m k f)).Nodup := by
  rw [recordKeys_recordUpdate]
  by_cases hm : k ∈ recordKeys m
  · rw [if_pos hm]; exact h
  · rw [if_neg hm]
    rw [List.nodup_append]
    exact ⟨h, List.nodup_singleton k, by simpa using fun hk => hm hk⟩

lemma objectGroupBy_go_lookup {α β : Type} (key : α → String)
    (f : Option β → α → β) (rows : List α) (m : List (String × β)) (k : String) :
    lookupFirst (rows.foldl (fun acc r => recordUpdate acc (key r) (fun o => f o r)) m) k =
      groupAcc f (lookupFirst m k) (rows.filter (fun r => key r = k)) := by
  induction rows generalizing m with
  | nil => simp [groupAcc]
  | cons r rows ih =>
    rw [List.foldl_cons, ih]
    by_cases h : key r = k
    · rw [List.filter_cons_of_pos (by simp [h])]
      rw [lookupFirst_recordUpdate, if_pos h.symm, h]
      rfl
    · rw [List.filter_cons_of_neg (by simp [h])]
      rw [lookupFirst_recordUpdate, if_neg (fun hk => h hk.symm)]

lemma objectGroupBy_lookup {α β : Type} (key : α → String)
    (f : Option β → α → β) (rows : List α) (k : String) :
    lookupFirst (objectGroupBy key f rows) k =
      groupAcc f none (rows.filter (fun r => key r = k)) := by
  unfold objectGroupBy
  rw [objectGroupBy_go_lookup]
  rfl

lemma objectGroupBy_go_keys {α β : Type} (key : α → String)
    (f : Option β → α → β) (rows : List α) (m : List (String × β)) :
    recordKeys (rows.foldl (fun acc r => recordUpdate acc (key r) (fun o => f o r)) m) =
      rows.foldl (fun acc r => if key r ∈ acc then acc else acc ++ [key r]) (recordKeys m) := by
  induction rows generalizing m with
  | nil => rfl
  | cons r rows ih =>
    rw [List.foldl_cons, ih, recordKeys_recordUpdate, List.foldl_cons]

lemma recordKeys_objectGroupBy {α β : Type} (key : α → String)
    (f : Option β → α → β) (rows : List α) :
    recordKeys (objectGroupBy key f rows) = distinctKeys key rows := by
  unfold objectGroupBy distinctKeys
  rw [objectGroupBy_go_keys]
  rfl

lemma distinctKeys_go_nodup {α : Type} (key : α → String) (rows : List α)
    (acc : List String) (h : acc.Nodup) :
    (rows.foldl (fun acc r => if key r ∈ acc then acc else acc ++ [key r]) acc).Nodup := by
  induction rows generalizing acc with
  | nil => exact h
  | cons r rows ih =>
    rw [List.foldl_cons]
    by_cases hk : key r ∈ acc
    · rw [if_pos hk]; exact ih acc h
    · rw [if_neg hk]
      refine ih _ ?_
      rw [List.nodup_append]
      exact ⟨h, List.nodup_singleton _, by simpa using fun hm => hk hm⟩

lemma distinctKeys_nodup {α : Type} (key : α → String) (rows : List α) :
    (distinctKeys key rows).Nodup :=
  distinctKeys_go_nodup key rows [] List.nodup_nil

lemma distinctKeys_go_mem {α : Type} (key : α → String) (rows : List α)
    (acc : List String) (k : String) :
    k ∈ rows.foldl (fun acc r => if key r ∈ acc then acc else acc ++ [key r]) acc ↔
      k ∈ acc ∨ k ∈ rows.map key := by
  induction rows generalizing acc with
  | nil => simp
  | cons r rows ih =>
    rw [List.foldl_cons]
    by_cases hk : key r ∈ acc
    · rw [if_pos hk, ih]
      simp only [List.map_cons, List.mem_cons]
      constructor
      · rintro (h | h)
        · exact Or.inl h
        · exact Or.inr (Or.inr h)
      · rintro (h | h | h)
        · exact Or.inl h
        · exact Or.inl (h ▸ hk)
        · exact Or.inr h
    · rw [if_neg hk, ih]
      simp only [List.mem_append, List.map_cons, List.mem_cons, List.mem_singleton,
        List.not_mem_nil, or_false]
      exact or_assoc

lemma mem_distinctKeys {α : Type} (key : α → String) (rows : List α) (k : String) :
    k ∈ distinctKeys key rows ↔ k ∈ rows.map key := by
  unfold distinctKeys
  rw [distinctKeys_go_mem]
  simp

lemma nodup_recordKeys_objectGroupBy {α β : Type} (key : α → String)
    (f : Option β → α → β) (rows : List α) :
    (recordKeys (objectGroupBy key f rows)).Nodup := by
  rw [recordKeys_objectGroupBy]
  exact distinctKeys_nodup key rows

lemma lookupFirst_of_mem {β : Type} {m : List (String × β)} {k : String} {v : β}
    (hnd : (recordKeys m).Nodup) (hmem : (k, v) ∈ m) :
    lookupFirst m k = some v := by
  induction m with
  | nil => exact absurd hmem (List.not_mem_nil _)
  | cons p m ih =>
    have hnd₂ : p.1 ∉ recordKeys m ∧ (recordKeys m).Nodup := by
      have h : (p.1 :: recordKeys m).Nodup := hnd
      exact List.nodup_cons.mp h
    rcases List.mem_cons.mp hmem with hp | hp
    · rw [← hp]
      simp [lookupFirst]
    · have hk : k ∈ recordKeys m := List.mem_map.mpr ⟨(k, v), hp, rfl⟩
      have hne : ¬ p.1 = k := fun h => hnd₂.1 (h ▸ hk)
      rw [lookupFirst, if_neg hne]
      exact ih hnd₂.2 hp

lemma mem_value_objectGroupBy {α β : Type} (key : α → String)
    (f : Option β → α → β) (rows : List α) (k : String) (v : β)
    (h : (k, v) ∈ objectGroupBy key f rows) :
    ∃ g gs, rows.filter (fun r => key r = k) = g :: gs ∧
      groupAcc f none (g :: gs) = some v := by
  have hlook : lookupFirst (objectGroupBy key f rows) k = some v :=
    lookupFirst_of_mem (nodup_recordKeys_objectGroupBy key f rows) h
  rw [objectGroupBy_lookup] at hlook
  cases hfil : rows.filter (fun r => key r = k) with
  | nil =>
    rw [hfil] at hlook
    exact Option.noConfusion hlook
  | cons g gs =>
    rw [hfil] at hlook
    exact ⟨g, gs, rfl, hlook⟩

/-- Record lists with the same keys in the same order, whose values are both
determined by the key through the same function, are equal. -/
lemma recordList_ext {β : Type} (F : String → β) :
    ∀ (l₁ l₂ : List (String × β)), recordKeys l₁ = recordKeys l₂ →
      (∀ p ∈ l₁, p.2 = F p.1) → (∀ p ∈ l₂, p.2 = F p.1) → l₁ = l₂ := by
  intro l₁
  induction l₁ with
  | nil =>
    intro l₂ hk _ _
    cases l₂ with
    | nil => rfl
    | cons q l₂ => exact absurd hk (by simp [recordKeys])
  | cons p l₁ ih =>
    intro l₂ hk h₁ h₂
    cases l₂ with
    | nil => exact absurd hk (by simp [recordKeys])
    | cons q l₂ =>
      simp only [recordKeys, List.map_cons, List.cons.injEq] at hk
      have hv : p.2 = q.2 := by
        rw [h₁ p (List.mem_cons_self p l₁), h₂ q (List.mem_cons_self q l₂), hk.1]
      have hpq : p = q := Prod.ext hk.1 hv
      rw [hpq, ih l₂ hk.2 (fun x hx => h₁ x (List.mem_cons_of_mem p hx))
        (fun x hx => h₂ x (List.mem_cons_of_mem q hx))]

end JsRecord

/-! ## Evaluating the group folds of the two dashboards -/

/-- The running-total update of Dashboard.tsx
(`totals[key] = (totals[key] || 0) + row.amount`), folded through a whole
group starting from an existing total. -/
lemma groupAcc_numOr_add {α : Type} (amt : α → ℤ) (gs : List α) (t : ℤ) :
    groupAcc (fun o r => jsNumOr o 0 + amt r) (some t) gs =
      some (t + (gs.map amt).sum) := by
  induction gs generalizing t with
  | nil => simp [groupAcc]
  | cons g gs ih =>
    show groupAcc _ (some (jsNumOr (some t) 0 + amt g)) gs = _
    rw [jsNumOr_some_zero, ih]
    simp [add_assoc]

lemma groupAcc_numOr_add_none {α : Type} (amt : α → ℤ) (g : α) (gs : List α) :
    groupAcc (fun o r => jsNumOr o 0 + amt r) none (g :: gs) =
      some (((g :: gs).map amt).sum) := by
  show groupAcc _ (some (jsNumOr none 0 + amt g)) gs = _
  rw [jsNumOr_none, zero_add, groupAcc_numOr_add]
  simp

/-- The total-and-count update of the alternative dashboard's manual fallback,
folded through a whole group starting from an existing summary entry. -/
lemma groupAcc_sum_count {α : Type} (amt : α → ℤ) (gs : List α) (t : ℤ) (c : ℕ) :
    groupAcc
      (fun o r =>
        match o with
        | none => (0 + amt r, 0 + 1)
        | some tc => (tc.1 + amt r, tc.2 + 1))
      (some (t, c)) gs = some (t + (gs.map amt).sum, c + gs.length) := by
  induction gs generalizing t c with
  | nil => simp [groupAcc]
  | cons g gs ih =>
    show groupAcc _ (some (t + amt g, c + 1)) gs = _
    rw [ih]
    simp [add_assoc, add_comm 1 gs.length]

lemma groupAcc_sum_count_none {α : Type} (amt : α → ℤ) (g : α) (gs : List α) :
    groupAcc
      (fun o r =>
        match o with
        | none => (0 + amt r, 0 + 1)
        | some tc => (tc.1 + amt r, tc.2 + 1))
      none (g :: gs) = some (((g :: gs).map amt).sum, (g :: gs).length) := by
  show groupAcc _ (some (0 + amt g, 0 + 1)) gs = _
  rw [groupAcc_sum_count]
  simp [add_comm 1 gs.length]

/-- A left fold accumulating `s + g x` is the sum of the mapped list
(the shape of every `reduce((sum, x) => sum + x.amount, 0)` in the code). -/
lemma foldl_add_map {α : Type} (g : α → ℤ) (l : List α) (c : ℤ) :
    l.foldl (fun s x => s + g x) c = c + (l.map g).sum := by
  induction l generalizing c with
  | nil => simp
  | cons x l ih =>
    rw [List.foldl_cons, ih]
    simp [add_assoc]

/-! ## Row types

Each row type carries exactly the fields the embedded code reads.
-/

/-- An expense row as consumed by the dashboards: Dashboard.tsx reads
`expense.category` and `expense.amount`; the alternative dashboard's manual
fallback selects exactly the columns `category, amount`. -/
structure ExpenseRow where
  category : String
  amount : ℤ
  deriving DecidableEq

/-- A funding row as consumed by the dashboards: `fund.type` and
`fund.amount` (fallback columns `type, amount`). -/
structure FundingRow where
  type : String
  amount : ℤ
  deriving DecidableEq

/-! ## Dashboard.tsx aggregations (claim C1) -/

/-- Dashboard.tsx lines 110-122: accumulate
`categoryTotals[expense.category] = (categoryTotals[expense.category] || 0) + expense.amount`
over the fetched expenses, then list the entries. -/
def getExpensesByCategory (expenses : List ExpenseRow) : List (String × ℤ) :=
  objectGroupBy (fun expense => expense.category)
    (fun o expense => jsNumOr o 0 + expense.amount) expenses

/-- Dashboard.tsx lines 125-137: the same accumulation keyed by `fund.type`. -/
def getFundingByType (funding : List FundingRow) : List (String × ℤ) :=
  objectGroupBy (fun fund => fund.type)
    (fun o fund => jsNumOr o 0 + fund.amount) funding

/-- Dashboard.tsx line 90: `expenses.reduce((sum, expense) => sum + expense.amount, 0)`. -/
def totalExpenses (expenses : List ExpenseRow) : ℤ :=
  expenses.foldl (fun sum expense => sum + expense.amount) 0

/-- Dashboard.tsx line 91: `funding.reduce((sum, fund) => sum + fund.amount, 0)`. -/
def totalFunding (funding : List FundingRow) : ℤ :=
  funding.foldl (fun sum fund => sum + fund.amount) 0

/-- Value of an entry of the running-total accumulation: the sum of the
amounts of the rows of its group. -/
lemma mem_value_numOr_group {α : Type} (key : α → String) (amt : α → ℤ)
    (rows : List α) (k : String) (v : ℤ)
    (h : (k, v) ∈ objectGroupBy key (fun o r => jsNumOr o 0 + amt r) rows) :
    v = ((rows.filter (fun r => key r = k)).map amt).sum := by
  obtain ⟨g, gs, hfil, hacc⟩ := mem_value_objectGroupBy _ _ _ _ _ h
  rw [groupAcc_numOr_add_none] at hacc
  rw [hfil]
  injection hacc with h₂
  exact h₂.symm

/-- Claim C1: the dashboard's grouped totals are the arithmetic sums of the
fetched rows' amounts grouped by key.  getExpensesByCategory has one entry per
distinct category whose amount is the sum of the amounts of the expense rows
with that category; getFundingByType likewise per distinct funding type; and
totalExpenses / totalFunding are the sums of all amounts of the respective
lists. -/
theorem dashboard_grouped_totals_c1 (expenses : List ExpenseRow)
    (funding : List FundingRow) :
    ((getExpensesByCategory expenses).map Prod.fst).Nodup ∧
    (∀ c, c ∈ (getExpensesByCategory expenses).map Prod.fst ↔
      c ∈ expenses.map ExpenseRow.category) ∧
    (∀ c q, (c, q) ∈ getExpensesByCategory expenses →
      q = ((expenses.filter (fun e => e.category = c)).map ExpenseRow.amount).sum) ∧
    ((getFundingByType funding).map Prod.fst).Nodup ∧
    (∀ t, t ∈ (getFundingByType funding).map Prod.fst ↔
      t ∈ funding.map FundingRow.type) ∧
    (∀ t q, (t, q) ∈ getFundingByType funding →
      q = ((funding.filter (fun f => f.type = t)).map FundingRow.amount).sum) ∧
    totalExpenses expenses = (expenses.map ExpenseRow.amount).sum ∧
    totalFunding funding = (funding.map FundingRow.amount).sum := by
  refine ⟨?_, ?_, ?_, ?_, ?_, ?_, ?_, ?_⟩
  · exact nodup_recordKeys_objectGroupBy _ _ _
  · intro c
    have h := mem_distinctKeys (fun e : ExpenseRow => e.category) expenses c
    rw [← recordKeys_objectGroupBy (fun e : ExpenseRow => e.category)
      (fun o e => jsNumOr o 0 + e.amount) expenses] at h
    exact h
  · intro c q hmem
    exact mem_value_numOr_group _ _ _ _ _ hmem
  · exact nodup_recordKeys_objectGroupBy _ _ _
  · intro t
    have h := mem_distinctKeys (fun f : FundingRow => f.type) funding t
    rw [← recordKeys_objectGroupBy (fun f : FundingRow => f.type)
      (fun o f => jsNumOr o 0 + f.amount) funding] at h
    exact h
  · intro t q hmem
    exact mem_value_numOr_group _ _ _ _ _ hmem
  · unfold totalExpenses
    rw [foldl_add_map, zero_add]
  · unfold totalFunding
    rw [foldl_add_map, zero_add]

/-- A small concrete fetch result used to instantiate the theorems. -/
def demoExpenses : List ExpenseRow :=
  [{ category := "Travel", amount := 2 },
   { category := "Supplies", amount := 3 },
   { category := "Travel", amount := 5 }]

/-- A small concrete funding fetch result used to instantiate the theorems. -/
def demoFunding : List FundingRow :=
  [{ type := "Grant", amount := 4 },
   { type := "Grant", amount := 6 },
   { type := "Internal", amount := 1 }]

/-- Witness for claim C1 at a concrete fetch result. -/
theorem dashboard_grouped_totals_c1_witness :
    ("Travel", (7 : ℤ)) ∈ getExpensesByCategory demoExpenses ∧
    (7 : ℤ) =
      ((demoExpenses.filter (fun e => e.category = "Travel")).map
        ExpenseRow.amount).sum :=
  ⟨by decide,
   (dashboard_grouped_totals_c1 demoExpenses demoFunding).2.2.1 "Travel" 7 (by decide)⟩

/-! ## Alternative dashboard fallback aggregation (claim C2)

The alternative dashboard (src/unnamed/part_002) calls the remote procedures
get_expenses_by_category / get_funding_by_type and, when the call fails,
re-aggregates raw `category, amount` (resp. `type, amount`) rows on the
client.
-/

/-- part_002 lines 83-101: the manual fallback for expenses.  For every row,
if `summary[category]` is absent it is initialised to zeros, then
`total += amount` and `count += 1`; the entries are listed in insertion
order. -/
def expensesByCategory (rows : List ExpenseRow) : List (String × ℤ × ℕ) :=
  objectGroupBy (fun expense => expense.category)
    (fun o expense =>
      match o with
      | none => (0 + expense.amount, 0 + 1)
      | some tc => (tc.1 + expense.amount, tc.2 + 1)) rows

/-- part_002 lines 128-146: the manual fallback for funding, keyed by type. -/
def fundingByType (rows : List FundingRow) : List (String × ℤ × ℕ) :=
  objectGroupBy (fun funding => funding.type)
    (fun o funding =>
      match o with
      | none => (0 + funding.amount, 0 + 1)
      | some tc => (tc.1 + funding.amount, tc.2 + 1)) rows

/-- Modelled from the spec: the remote procedure get_expenses_by_category
lives in the database and is absent from src/; types.ts lines 180-189 declare
its output shape `(category, total, count)[]`, and the spec describes it as
the aggregation of the user's expense rows by category.  One summary entry
per distinct category, whose total is the sum of the group's amounts and
whose count is the group's size. -/
def get_expenses_by_category (rows : List ExpenseRow) : List (String × ℤ × ℕ) :=
  (distinctKeys (fun expense => expense.category) rows).map (fun c =>
    (c, ((rows.filter (fun e => e.category = c)).map ExpenseRow.amount).sum,
        (rows.filter (fun e => e.category = c)).length))

/-- Modelled from the spec: the remote procedure get_funding_by_type
(types.ts lines 190-199), aggregating the user's funding rows by type. -/
def get_funding_by_type (rows : List FundingRow) : List (String × ℤ × ℕ) :=
  (distinctKeys (fun funding => funding.type) rows).map (fun t =>
    (t, ((rows.filter (fun f => f.type = t)).map FundingRow.amount).sum,
        (rows.filter (fun f => f.type = t)).length))

/-- Value of an entry of the total-and-count accumulation: the sum of the
amounts and the size of the row group of its key. -/
lemma mem_value_sum_count_group {α : Type} (key : α → String) (amt : α → ℤ)
    (rows : List α) (k : String) (v : ℤ × ℕ)
    (h : (k, v) ∈ objectGroupBy key
      (fun o r =>
        match o with
        | none => (0 + amt r, 0 + 1)
        | some tc => (tc.1 + amt r, tc.2 + 1)) rows) :
    v = (((rows.filter (fun r => key r = k)).map amt).sum,
         (rows.filter (fun r => key r = k)).length) := by
  obtain ⟨g, gs, hfil, hacc⟩ := mem_value_objectGroupBy _ _ _ _ _ h
  rw [groupAcc_sum_count_none] at hacc
  rw [hfil]
  injection hacc with h₂
  exact h₂.symm

/-- Claim C2: the client-side fallback aggregation produces exactly the
declared output of the remote procedure it replaces: for every list of
expense rows (resp. funding rows), one summary entry per distinct category
(resp. type) whose total is the sum of the group's amounts and whose count
is the group's size. -/
theorem rpc_fallback_equivalence_c2 (expenses : List ExpenseRow)
    (funding : List FundingRow) :
    expensesByCategory expenses = get_expenses_by_category expenses ∧
    fundingByType funding = get_funding_by_type funding := by
  constructor
  · apply recordList_ext (fun c =>
      (((expenses.filter (fun e => e.category = c)).map ExpenseRow.amount).sum,
       (expenses.filter (fun e => e.category = c)).length))
    · show recordKeys (objectGroupBy _ _ _) = _
      rw [recordKeys_objectGroupBy]
      unfold get_expenses_by_category recordKeys
      rw [List.map_map]
      have h : (Prod.fst ∘ fun c =>
          (c, ((expenses.filter (fun e => e.category = c)).map ExpenseRow.amount).sum,
              (expenses.filter (fun e => e.category = c)).length)) =
          fun c : String => c := rfl
      rw [h]
      exact (List.map_id' _).symm
    · rintro ⟨k, v⟩ hmem
      exact mem_value_sum_count_group _ _ _ _ _ hmem
    · rintro ⟨k, v⟩ hmem
      rw [get_expenses_by_category] at hmem
      obtain ⟨c, _, hc⟩ := List.mem_map.mp hmem
      obtain ⟨h₁, h₂⟩ := Prod.mk.injEq .. ▸ hc
      simp only [← h₁, ← h₂]
  · apply recordList_ext (fun t =>
      (((funding.filter (fun f => f.type = t)).map FundingRow.amount).sum,
       (funding.filter (fun f => f.type = t)).length))
    · show recordKeys (objectGroupBy _ _ _) = _
      rw [recordKeys_objectGroupBy]
      unfold get_funding_by_type recordKeys
      rw [List.map_map]
      have h : (Prod.fst ∘ fun t =>
          (t, ((funding.filter (fun f => f.type = t)).map FundingRow.amount).sum,
              (funding.filter (fun f => f.type = t)).length)) =
          fun t : String => t := rfl
      rw [h]
      exact (List.map_id' _).symm
    · rintro ⟨k, v⟩ hmem
      exact mem_value_sum_count_group _ _ _ _ _ hmem
    · rintro ⟨k, v⟩ hmem
      rw [get_funding_by_type] at hmem
      obtain ⟨t, _, ht⟩ := List.mem_map.mp hmem
      obtain ⟨h₁, h₂⟩ := Prod.mk.injEq .. ▸ ht
      simp only [← h₁, ← h₂]

/-- Witness for claim C2 at a concrete fetch result. -/
theorem rpc_fallback_equivalence_c2_witness :
    expensesByCategory demoExpenses = get_expenses_by_category demoExpenses ∧
    expensesByCategory demoExpenses = [("Travel", 7, 2), ("Supplies", 3, 1)] :=
  ⟨(rpc_fallback_equivalence_c2 demoExpenses demoFunding).1, by decide⟩

/-! ## Programs and per-program summaries (claims C3 and C8) -/

/-- A program row.  The dashboards read id, name, budget, status and the
creation timestamp (used only for ordering, modelled as a natural number). -/
structure Program where
  id : String
  name : String
  budget : ℤ
  status : String
  created_at : ℕ
  deriving DecidableEq

/-- An expense row as consumed by the per-program summary queries of the
alternative dashboard: the query selects `amount` filtered by `program_id`. -/
structure ExpenseRec where
  program_id : Option String
  amount : ℤ
  deriving DecidableEq

/-- A funding row as consumed by the per-program summary queries. -/
structure FundingRec where
  program_id : Option String
  amount : ℤ
  deriving DecidableEq

/-- One row of the alternative dashboard's program table (part_002 lines
193-201). -/
structure ProgramSummary where
  id : String
  name : String
  budget : ℤ
  expenses : ℤ
  funding : ℤ
  status : String
  balance : ℤ
  deriving DecidableEq

/-- part_002 lines 152-208: for every program, fetch the expense and funding
rows whose `program_id` matches the program (modelled as filtering the full
row lists), total each with `reduce((sum, item) => sum + item.amount, 0)`,
and emit budget, the two totals, and `balance = totalFunding - totalExpenses`. -/
def programSummaries (programs : List Program) (expenses : List ExpenseRec)
    (funding : List FundingRec) : List ProgramSummary :=
  programs.map (fun program =>
    let programExpenses := expenses.filter (fun e => e.program_id = some program.id)
    let programFunding := funding.filter (fun f => f.program_id = some program.id)
    let expensesTotal := programExpenses.foldl (fun sum item => sum + item.amount) 0
    let fundingTotal := programFunding.foldl (fun sum item => sum + item.amount) 0
    { id := program.id, name := program.name, budget := program.budget,
      expenses := expensesTotal, funding := fundingTotal,
      status := program.status, balance := fundingTotal - expensesTotal })

/-- Claim C3: each program's dashboard summary carries, as its expenses and
funding fields, the sums of the amounts of the expense rows and funding rows
referencing that program, and its balance is funding minus expenses. -/
theorem program_balances_c3 (programs : List Program)
    (expenses : List ExpenseRec) (funding : List FundingRec) :
    (programSummaries programs expenses funding).length = programs.length ∧
    ∀ i (hp : i < programs.length)
      (hs : i < (programSummaries programs expenses funding).length),
      ((programSummaries programs expenses funding).get ⟨i, hs⟩).expenses =
        ((expenses.filter
          (fun e => e.program_id = some (programs.get ⟨i, hp⟩).id)).map
            ExpenseRec.amount).sum ∧
      ((programSummaries programs expenses funding).get ⟨i, hs⟩).funding =
        ((funding.filter
          (fun f => f.program_id = some (programs.get ⟨i, hp⟩).id)).map
            FundingRec.amount).sum ∧
      ((programSummaries programs expenses funding).get ⟨i, hs⟩).balance =
        ((programSummaries programs expenses funding).get ⟨i, hs⟩).funding -
          ((programSummaries programs expenses funding).get ⟨i, hs⟩).expenses := by
  constructor
  · unfold programSummaries
    exact List.length_map _ _
  · intro i hp hs
    have hget : (programSummaries programs expenses funding).get ⟨i, hs⟩ =
        (fun program =>
          let programExpenses :=
            expenses.filter (fun e => e.program_id = some program.id)
          let programFunding :=
            funding.filter (fun f => f.program_id = some program.id)
          let expensesTotal :=
            programExpenses.foldl (fun sum item => sum + item.amount) 0
          let fundingTotal :=
            programFunding.foldl (fun sum item => sum + item.amount) 0
          { id := program.id, name := program.name, budget := program.budget,
            expenses := expensesTotal, funding := fundingTotal,
            status := program.status,
            balance := fundingTotal - expensesTotal : ProgramSummary })
          (programs.get ⟨i, hp⟩) := by
      unfold programSummaries
      simp only [List.get_eq_getElem, List.getElem_map]
    rw [hget]
    refine ⟨?_, ?_, rfl⟩
    · show (expenses.filter _).foldl (fun sum item => sum + item.amount) 0 = _
      rw [foldl_add_map, zero_add]
    · show (funding.filter _).foldl (fun sum item => sum + item.amount) 0 = _
      rw [foldl_add_map, zero_add]

/-- Concrete programs for the witnesses. -/
def demoPrograms : List Program :=
  [{ id := "p1", name := "Outreach", budget := 10, status := "active", created_at := 30 },
   { id := "p2", name := "Research", budget := 20, status := "active", created_at := 20 }]

/-- Concrete expense records for the witnesses. -/
def demoExpenseRecs : List ExpenseRec :=
  [{ program_id := some "p1", amount := 3 },
   { program_id := some "p2", amount := 4 },
   { program_id := some "p1", amount := 5 },
   { program_id := none, amount := 100 }]

/-- Concrete funding records for the witnesses. -/
def demoFundingRecs : List FundingRec :=
  [{ program_id := some "p1", amount := 11 },
   { program_id := none, amount := 50 }]

/-- Witness for claim C3 at a concrete store: program p1 has expenses 8,
funding 11, balance 3. -/
theorem program_balances_c3_witness :
    (0 < demoPrograms.length ∧
      0 < (programSummaries demoPrograms demoExpenseRecs demoFundingRecs).length) ∧
    ((programSummaries demoPrograms demoExpenseRecs demoFundingRecs).get
        ⟨0, by decide⟩).expenses =
      ((demoExpenseRecs.filter
        (fun e => e.program_id = some (demoPrograms.get ⟨0, by decide⟩).id)).map
          ExpenseRec.amount).sum :=
  ⟨⟨by decide, by decide⟩,
   ((program_balances_c3 demoPrograms demoExpenseRecs demoFundingRecs).2 0
     (by decide) (by decide)).1⟩

/-- One bar of the dashboard's "Top Program Budgets" chart. -/
structure ProgramBudgetEntry where
  name : String
  budget : ℤ
  deriving DecidableEq

/-- Dashboard.tsx lines 140-147: `programs.slice(0, 5)` of the fetched list
(which the query at lines 21-27 orders by `created_at` descending), each
mapped to its budget and its name truncated to 15 characters plus an
ellipsis when longer than 15.  String length counts characters, which agrees
with the JavaScript UTF-16 length on the basic multilingual plane. -/
def getProgramBudgets (programs : List Program) : List ProgramBudgetEntry :=
  (programs.take 5).map (fun program =>
    { name :=
        if 15 < program.name.length then program.name.take 15 ++ "..."
        else program.name,
      budget := program.budget })

/-- Six programs listed by descending creation time whose largest budget
belongs to the oldest program: the chart (first five) misses it. -/
def demoManyPrograms : List Program :=
  [{ id := "a", name := "A", budget := 1, status := "active", created_at := 60 },
   { id := "b", name := "B", budget := 1, status := "active", created_at := 50 },
   { id := "c", name := "C", budget := 1, status := "active", created_at := 40 },
   { id := "d", name := "D", budget := 1, status := "active", created_at := 30 },
   { id := "e", name := "E", budget := 1, status := "active", created_at := 20 },
   { id := "f", name := "F", budget := 100, status := "active", created_at := 10 }]

/-- Claim C8: on a fetched list ordered by creation time descending, the
"Top Program Budgets" chart shows exactly the first five programs — the five
most recently created, every later-listed (older) program is at most as
recent — with names longer than 15 characters truncated to their first 15
plus "..."; and it is not the five largest budgets: some sorted list has a
program whose budget exceeds every charted budget. -/
theorem top_program_budgets_c8 (programs : List Program)
    (hdesc : programs.Pairwise (fun a b => b.created_at ≤ a.created_at)) :
    (getProgramBudgets programs).length = min 5 programs.length ∧
    (∀ i (hb : i < (getProgramBudgets programs).length) (hp : i < programs.length),
      ((getProgramBudgets programs).get ⟨i, hb⟩).budget =
        (programs.get ⟨i, hp⟩).budget ∧
      ((getProgramBudgets programs).get ⟨i, hb⟩).name =
        (if 15 < (programs.get ⟨i, hp⟩).name.length
         then (programs.get ⟨i, hp⟩).name.take 15 ++ "..."
         else (programs.get ⟨i, hp⟩).name)) ∧
    (∀ p ∈ programs.take 5, ∀ q ∈ programs.drop 5, q.created_at ≤ p.created_at) ∧
    ¬ (∀ ps : List Program, ps.Pairwise (fun a b => b.created_at ≤ a.created_at) →
        ∀ q ∈ ps, ∃ entry ∈ getProgramBudgets ps, q.budget ≤ entry.budget) := by
  refine ⟨?_, ?_, ?_, ?_⟩
  · unfold getProgramBudgets
    rw [List.length_map, List.length_take]
  · intro i hb hp
    have hbt : i < (programs.take 5).length := by
      unfold getProgramBudgets at hb
      rw [List.length_map] at hb
      exact hb
    have hget : (getProgramBudgets programs).get ⟨i, hb⟩ =
        { name :=
            if 15 < (programs.get ⟨i, hp⟩).name.length
            then (programs.get ⟨i, hp⟩).name.take 15 ++ "..."
            else (programs.get ⟨i, hp⟩).name,
          budget := (programs.get ⟨i, hp⟩).budget } := by
      unfold getProgramBudgets
      simp only [List.get_eq_getElem, List.getElem_map, List.getElem_take]
    rw [hget]
    exact ⟨rfl, rfl⟩
  · have h := hdesc
    rw [← List.take_append_drop 5 programs, List.pairwise_append] at h
    exact h.2.2
  · intro h
    obtain ⟨entry, hmem, hle⟩ := h demoManyPrograms (by decide)
      ({ id := "f", name := "F", budget := 100, status := "active",
         created_at := 10 }) (by decide)
    have hall : ∀ e ∈ getProgramBudgets demoManyPrograms, ¬ (100 ≤ e.budget) := by
      decide
    exact hall entry hmem hle

/-- Witness for claim C8: the first chart entry of the concrete descending
list carries the first program's budget. -/
theorem top_program_budgets_c8_witness :
    demoPrograms.Pairwise (fun a b => b.created_at ≤ a.created_at) ∧
    (((getProgramBudgets demoPrograms).get ⟨0, by decide⟩).budget =
        (demoPrograms.get ⟨0, by decide⟩).budget ∧
      ((getProgramBudgets demoPrograms).get ⟨0, by decide⟩).name =
        (if 15 < (demoPrograms.get ⟨0, by decide⟩).name.length
         then (demoPrograms.get ⟨0, by decide⟩).name.take 15 ++ "..."
         else (demoPrograms.get ⟨0, by decide⟩).name)) :=
  ⟨by decide,
   (top_program_budgets_c8 demoPrograms (by decide)).2.1 0 (by decide) (by decide)⟩

/-! ## Mutation and failure paths (claims C4 and C5)

Every data mutation of the application and every failure handler is
transcribed as the list of user-visible effects its callback performs, in
program order.  `setState` records a local state update, `invalidate` a call
to `queryClient.invalidateQueries` with the given query key, the toast
constructors a notification, `consoleLog` a console message, `storageRemove`
a storage-object deletion, and `retryOperation` a re-issue of the failed
request (no handler in the repository performs one, and the constructor
exists so that its absence is expressible).
-/

/-- A user-visible side effect of a callback. -/
inductive Effect where
  | invalidate (queryKey : String)
  | toastSuccess (message : String)
  | toastError (message : String)
  | setState (target : String)
  | consoleLog (message : String)
  | storageRemove (bucket : String) (path : String)
  | retryOperation
  deriving DecidableEq

/-- The user-submitted mutation paths of the application, one per
insert / update / delete call site. -/
inductive MutationPath where
  /-- part_000 Programs page createProgram -/
  | programsCreate
  /-- part_000 Programs page updateProgram -/
  | programsUpdate
  /-- part_000 Programs page deleteProgram -/
  | programsDelete
  /-- part_000 Funding page createFunding -/
  | fundingCreate
  /-- part_000 Funding page updateFunding -/
  | fundingUpdate
  /-- part_000 Funding page deleteFunding -/
  | fundingDelete
  /-- Expenses.tsx createMutation -/
  | expensesCreate
  /-- Expenses.tsx updateMutation -/
  | expensesUpdate
  /-- Expenses.tsx deleteMutation -/
  | expensesDelete
  /-- Index.tsx handleCreateProgram -/
  | indexCreate
  /-- Index.tsx handleUpdateProgram -/
  | indexUpdate
  /-- Index.tsx handleDeleteProgram -/
  | indexDelete
  /-- part_001 Index variant handleCreateProgram -/
  | indexVariantCreate
  /-- Profile.tsx updateProfile -/
  | profileUpdate
  /-- Profile.tsx uploadAvatar's profiles update -/
  | avatarProfileUpdate
  /-- Layout.tsx toggleTheme (profiles update) -/
  | layoutThemeToggle
  deriving DecidableEq

/-- The entity table each mutation path writes, which is also the query key
of the list that displays it (Profile.tsx and Layout.tsx key the profile
query as ["profile", user.id]; the entity name component is "profile"). -/
def entityKey : MutationPath → String
  | .programsCreate | .programsUpdate | .programsDelete => "programs"
  | .fundingCreate | .fundingUpdate | .fundingDelete => "funding"
  | .expensesCreate | .expensesUpdate | .expensesDelete => "expenses"
  | .indexCreate | .indexUpdate | .indexDelete => "programs"
  | .indexVariantCreate => "programs"
  | .profileUpdate | .avatarProfileUpdate | .layoutThemeToggle => "profile"

/-- The effects each mutation's success continuation performs, in program
order, transcribed from the onSuccess callbacks (or, for the try/catch
handlers, from the statements after the awaited insert). -/
def successEffects : MutationPath → List Effect
  | .programsCreate =>
      [.invalidate "programs", .toastSuccess "Program created successfully",
       .setState "isOpen", .setState "formData"]
  | .programsUpdate =>
      [.invalidate "programs", .toastSuccess "Program updated successfully",
       .setState "isOpen", .setState "formData"]
  | .programsDelete =>
      [.invalidate "programs", .toastSuccess "Program deleted successfully"]
  | .fundingCreate =>
      [.invalidate "funding", .setState "isAddDialogOpen", .setState "formData",
       .toastSuccess "Funding added successfully"]
  | .fundingUpdate =>
      [.invalidate "funding", .setState "isEditDialogOpen", .setState "formData",
       .toastSuccess "Funding updated successfully"]
  | .fundingDelete =>
      [.invalidate "funding", .setState "isDeleteDialogOpen",
       .setState "selectedFunding", .toastSuccess "Funding deleted successfully"]
  | .expensesCreate =>
      [.invalidate "expenses", .setState "isCreating", .setState "newExpense",
       .toastSuccess "Expense created successfully"]
  | .expensesUpdate =>
      [.invalidate "expenses", .setState "isEditing", .setState "editingExpense",
       .toastSuccess "Expense updated successfully"]
  | .expensesDelete =>
      [.invalidate "expenses", .toastSuccess "Expense deleted successfully"]
  | .indexCreate =>
      [.setState "newProgramName", .setState "newProgramBudget",
       .setState "newProgramDescription", .setState "isCreating",
       .invalidate "programs", .toastSuccess "Program created successfully"]
  | .indexUpdate =>
      [.setState "isEditing", .setState "editingProgram",
       .invalidate "programs", .toastSuccess "Program updated successfully"]
  | .indexDelete =>
      [.invalidate "programs", .toastSuccess "Program deleted successfully"]
  | .indexVariantCreate =>
      [.setState "newProgramName", .setState "newProgramBudget",
       .setState "isCreating", .toastSuccess "Program created successfully"]
  | .profileUpdate =>
      [.invalidate "profile", .toastSuccess "Profile updated successfully"]
  | .avatarProfileUpdate =>
      [.invalidate "profile", .toastSuccess "Avatar updated successfully",
       .setState "isUploading", .setState "avatarFile"]
  | .layoutThemeToggle =>
      [.invalidate "profile", .toastSuccess "Theme changed"]

/-- Claim C4 as stated is false: part_001's handleCreateProgram (lines
51-66) resets its form state and shows a success toast after a successful
insert into programs without invalidating any query, so the programs list is
not refetched on that path. -/
theorem cache_invalidation_c4_counterexample :
    ¬ ∀ p : MutationPath,
        Effect.invalidate (entityKey p) ∈ successEffects p :=
  fun h => absurd (h .indexVariantCreate) (by decide)

/-- Claim C4 (amended): after every user-submitted mutation except the
program-create submission of the standalone Index page variant
(src/unnamed/part_001), the success continuation invalidates the query cache
entry keyed by the mutated entity's name; that one variant inserts and
toasts without invalidating. -/
theorem cache_invalidation_c4 (p : MutationPath)
    (h : p ≠ MutationPath.indexVariantCreate) :
    Effect.invalidate (entityKey p) ∈ successEffects p := by
  cases p <;> first
    | exact absurd rfl h
    | decide

/-- Witness for the amended claim C4 at the expense-create path. -/
theorem cache_invalidation_c4_witness :
    MutationPath.expensesCreate ≠ MutationPath.indexVariantCreate ∧
    Effect.invalidate (entityKey MutationPath.expensesCreate) ∈
      successEffects MutationPath.expensesCreate :=
  ⟨by decide, cache_invalidation_c4 .expensesCreate (by decide)⟩

/-- The fetch-on-mount query call sites of the application, one per useQuery
whose queryFn can fail. -/
inductive QueryPath where
  /-- Dashboard.tsx programs query -/
  | dashboardProgramsQuery
  /-- Dashboard.tsx expenses query -/
  | dashboardExpensesQuery
  /-- Dashboard.tsx funding query -/
  | dashboardFundingQuery
  /-- Index.tsx programs query -/
  | indexProgramsQuery
  /-- part_001 Index variant programs query -/
  | indexVariantProgramsQuery
  /-- Expenses.tsx expenses query -/
  | expensesQuery
  /-- Expenses.tsx programs query -/
  | expensesProgramsQuery
  /-- Profile.tsx profile query -/
  | profileQuery
  /-- Layout.tsx profile query -/
  | layoutProfileQuery
  /-- part_000 Programs page programs query -/
  | programsPageQuery
  /-- part_000 Funding page programs query -/
  | fundingPageProgramsQuery
  /-- part_000 Funding page funding query -/
  | fundingPageFundingQuery
  /-- part_002 alternative dashboard programs query -/
  | altProgramsQuery
  /-- part_002 alternative dashboard expenses-by-category query -/
  | altExpenseSummaryQuery
  /-- part_002 alternative dashboard funding-by-type query -/
  | altFundingSummaryQuery
  /-- part_002 alternative dashboard program-summaries query -/
  | altProgramSummariesQuery
  deriving DecidableEq

/-- The effects each query's error path performs before rethrowing,
transcribed from the queryFn bodies.  The part_000 and part_002 queries
rethrow bare (`if (error) throw error`), and Layout.tsx only logs to the
console and returns null. -/
def queryErrorEffects : QueryPath → List Effect
  | .dashboardProgramsQuery => [.toastError "Error fetching programs"]
  | .dashboardExpensesQuery => [.toastError "Error fetching expenses"]
  | .dashboardFundingQuery => [.toastError "Error fetching funding"]
  | .indexProgramsQuery => [.toastError "Error fetching programs"]
  | .indexVariantProgramsQuery => [.toastError "Error fetching programs"]
  | .expensesQuery => [.toastError "Error fetching expenses"]
  | .expensesProgramsQuery => [.toastError "Error fetching programs"]
  | .profileQuery => [.toastError "Error fetching profile"]
  | .layoutProfileQuery => [.consoleLog "Error fetching profile"]
  | .programsPageQuery => []
  | .fundingPageProgramsQuery => []
  | .fundingPageFundingQuery => []
  | .altProgramsQuery => []
  | .altExpenseSummaryQuery => []
  | .altFundingSummaryQuery => []
  | .altProgramSummariesQuery => []

/-- The effects each mutation's error path performs, transcribed from the
onError callbacks and catch blocks. -/
def mutationErrorEffects : MutationPath → List Effect
  | .programsCreate => [.toastError "Failed to create program"]
  | .programsUpdate => [.toastError "Failed to update program"]
  | .programsDelete => [.toastError "Failed to delete program"]
  | .fundingCreate => [.toastError "Failed to add funding"]
  | .fundingUpdate => [.toastError "Failed to update funding"]
  | .fundingDelete => [.toastError "Failed to delete funding"]
  | .expensesCreate => [.toastError "Error creating expense"]
  | .expensesUpdate => [.toastError "Error updating expense"]
  | .expensesDelete => [.toastError "Error deleting expense"]
  | .indexCreate => [.toastError "Error creating program"]
  | .indexUpdate => [.toastError "Error updating program"]
  | .indexDelete => [.toastError "Error deleting program"]
  | .indexVariantCreate => [.toastError "Error creating program"]
  | .profileUpdate => [.toastError "Error updating profile"]
  | .avatarProfileUpdate =>
      [.toastError "Error uploading avatar", .consoleLog "Avatar upload error",
       .setState "isUploading", .setState "avatarFile"]
  | .layoutThemeToggle => [.toastError "Failed to update theme preference"]

/-- Number of error toasts in an effect list. -/
def toastCount (effects : List Effect) : ℕ :=
  (effects.filter (fun e =>
    match e with
    | .toastError _ => true
    | _ => false)).length

/-- Claim C5 as stated is false: the part_000 Programs page query (line 123)
rethrows a fetch failure without performing any effect, so that failure is
surfaced as zero toasts, not exactly one. -/
theorem error_handling_c5_counterexample :
    queryErrorEffects QueryPath.programsPageQuery = [] ∧
    ¬ toastCount (queryErrorEffects QueryPath.programsPageQuery) = 1 := by
  decide

/-- Claim C5 (amended): no failure handler in the repository retries the
failed operation, every failing mutation is surfaced as exactly one error
toast, and every failing query is surfaced as at most one error toast — the
part_000 Programs and Funding page queries, the part_002 alternative
dashboard queries, and the Layout profile query rethrow or swallow the error
without any toast. -/
theorem error_handling_c5 :
    (∀ p : MutationPath, Effect.retryOperation ∉ mutationErrorEffects p ∧
        toastCount (mutationErrorEffects p) = 1) ∧
    (∀ q : QueryPath, Effect.retryOperation ∉ queryErrorEffects q ∧
        toastCount (queryErrorEffects q) ≤ 1) := by
  constructor
  · intro p
    cases p <;> exact (by decide)
  · intro q
    cases q <;> exact (by decide)

/-- Witness for the amended claim C5 at the program-create mutation. -/
theorem error_handling_c5_witness :
    Effect.retryOperation ∉ mutationErrorEffects MutationPath.programsCreate ∧
    toastCount (mutationErrorEffects MutationPath.programsCreate) = 1 :=
  error_handling_c5.1 MutationPath.programsCreate

/-! ## Program form submission (claim C6) -/

/-- part_000 lines 71-78: the program form's state; the budget is the raw
input string, dates may be unpicked (modelled as optional date strings). -/
structure ProgramFormData where
  name : String
  description : String
  budget : String
  start_date : Option String
  end_date : Option String
  status : String
  deriving DecidableEq

/-- The mutation a program form submission issues. -/
inductive ProgramMutation where
  | createProgram (form : ProgramFormData)
  | updateProgram (id : String) (form : ProgramFormData)
  deriving DecidableEq

/-- part_000 lines 214-227: the submit handler.  An empty name or budget
(the falsy strings of the `!formData.name || !formData.budget` guard) toasts
an error and issues no mutation; otherwise edit mode with a truthy current
program id issues the update, and any other state issues the create. -/
def handleSubmit (isEditMode : Bool) (currentProgramId : Option String)
    (formData : ProgramFormData) : List Effect × Option ProgramMutation :=
  if formData.name = "" ∨ formData.budget = "" then
    ([Effect.toastError "Please fill in all required fields"], none)
  else
    match isEditMode, currentProgramId with
    | true, some pid =>
        if pid = "" then ([], some (ProgramMutation.createProgram formData))
        else ([], some (ProgramMutation.updateProgram pid formData))
    | _, _ => ([], some (ProgramMutation.createProgram formData))

/-- The insert payload of part_001's create handler (lines 52-56). -/
structure ProgramInsert where
  name : String
  budget : Option ℚ
  user_id : String
  deriving DecidableEq

/-- part_001 lines 40-56: the Index variant's create handler up to the
insert decision.  An empty name or budget toasts "Missing information" and
returns without inserting; otherwise the insert payload carries the parsed
budget. -/
def handleCreateProgram (userId newProgramName newProgramBudget : String) :
    List Effect × Option ProgramInsert :=
  if newProgramName = "" ∨ newProgramBudget = "" then
    ([Effect.toastError "Missing information"], none)
  else
    ([], some { name := newProgramName,
                budget := jsParseFloat newProgramBudget,
                user_id := userId })

/-- Claim C6: submitting a program form with an empty required field (name
or budget) blocks submission on both program forms: no insert or update
mutation is issued, an error notification is shown, and — since no mutation
reaches the store — the stored program list is unchanged under any
interpretation of how mutations act on it. -/
theorem required_fields_block_c6 :
    (∀ (isEditMode : Bool) (pid : Option String) (form : ProgramFormData),
      form.name = "" ∨ form.budget = "" →
        (handleSubmit isEditMode pid form).2 = none ∧
        (handleSubmit isEditMode pid form).1 =
          [Effect.toastError "Please fill in all required fields"] ∧
        ∀ (store : List Program)
          (applyMutation : ProgramMutation → List Program → List Program),
          (match (handleSubmit isEditMode pid form).2 with
           | none => store
           | some m => applyMutation m store) = store) ∧
    (∀ (userId n b : String), n = "" ∨ b = "" →
      (handleCreateProgram userId n b).2 = none ∧
      (handleCreateProgram userId n b).1 =
        [Effect.toastError "Missing information"]) := by
  constructor
  · intro mode pid form h
    simp only [handleSubmit, if_pos h]
    exact ⟨trivial, trivial, fun _ _ => trivial⟩
  · intro userId n b h
    simp only [handleCreateProgram, if_pos h]
    exact ⟨trivial, trivial⟩

/-- A program form whose required name is empty. -/
def demoBlockedForm : ProgramFormData :=
  { name := "", description := "d", budget := "50",
    start_date := none, end_date := none, status := "active" }

/-- Witness for claim C6: the blocked form issues no mutation and leaves a
concrete store unchanged. -/
theorem required_fields_block_c6_witness :
    (demoBlockedForm.name = "" ∨ demoBlockedForm.budget = "") ∧
    (handleSubmit false none demoBlockedForm).2 = none ∧
    (match (handleSubmit false none demoBlockedForm).2 with
     | none => demoPrograms
     | some _ => []) = demoPrograms :=
  ⟨Or.inl rfl,
   (required_fields_block_c6.1 false none demoBlockedForm (Or.inl rfl)).1,
   by decide⟩

/-! ## Avatar upload (claim C7) -/

/-- The avatars storage bucket: the set of stored object paths. -/
structure StorageState where
  avatars : List String
  deriving DecidableEq

/-- The profile row's avatar field. -/
structure ProfileRecord where
  avatar_url : Option String
  deriving DecidableEq

/-- Profile.tsx lines 82-130: upload the file to the avatars bucket (upsert),
then update the profile row's avatar_url with the public URL.  The two
outcome flags say whether each remote call succeeds; a thrown error lands in
the single catch block, which only toasts and logs, and the finally block
resets the local state.  No branch deletes anything from storage. -/
def uploadAvatar (uploadOk updateOk : Bool) (filePath publicUrl : String)
    (storage : StorageState) (profile : ProfileRecord) :
    StorageState × ProfileRecord × List Effect :=
  if uploadOk = false then
    (storage, profile,
     [Effect.toastError "Error uploading avatar",
      Effect.consoleLog "Avatar upload error",
      Effect.setState "isUploading", Effect.setState "avatarFile"])
  else
    let storageAfter : StorageState :=
      { avatars :=
          if filePath ∈ storage.avatars then storage.avatars
          else storage.avatars ++ [filePath] }
    if updateOk = false then
      (storageAfter, profile,
       [Effect.toastError "Error uploading avatar",
        Effect.consoleLog "Avatar upload error",
        Effect.setState "isUploading", Effect.setState "avatarFile"])
    else
      (storageAfter, { profile with avatar_url := some publicUrl },
       [Effect.invalidate "profile",
        Effect.toastSuccess "Avatar updated successfully",
        Effect.setState "isUploading", Effect.setState "avatarFile"])

/-- Claim C7: in the execution where the storage upload succeeds and the
profile update fails, the uploaded file is left in the avatars bucket, the
profile's avatar_url is unchanged, and no compensating storage deletion is
performed. -/
theorem avatar_no_compensation_c7 (storage : StorageState)
    (profile : ProfileRecord) (filePath publicUrl : String) :
    filePath ∈ (uploadAvatar true false filePath publicUrl storage profile).1.avatars ∧
    (uploadAvatar true false filePath publicUrl storage profile).2.1 = profile ∧
    ∀ bucket path, Effect.storageRemove bucket path ∉
      (uploadAvatar true false filePath publicUrl storage profile).2.2 := by
  have hdef : uploadAvatar true false filePath publicUrl storage profile =
      ({ avatars :=
           if filePath ∈ storage.avatars then storage.avatars
           else storage.avatars ++ [filePath] },
       profile,
       [Effect.toastError "Error uploading avatar",
        Effect.consoleLog "Avatar upload error",
        Effect.setState "isUploading", Effect.setState "avatarFile"]) := rfl
  rw [hdef]
  refine ⟨?_, rfl, ?_⟩
  · by_cases h : filePath ∈ storage.avatars
    · simp [h]
    · simp [h]
  · intro bucket path
    simp

/-- Witness for claim C7 at a concrete storage and profile state. -/
theorem avatar_no_compensation_c7_witness :
    "u1-11.png" ∈
      (uploadAvatar true false "u1-11.png" "https://cdn/u1-11.png"
        { avatars := ["u1-3.png"] } { avatar_url := none }).1.avatars ∧
    (uploadAvatar true false "u1-11.png" "https://cdn/u1-11.png"
        { avatars := ["u1-3.png"] } { avatar_url := none }).2.1 =
      { avatar_url := none } :=
  ⟨(avatar_no_compensation_c7 { avatars := ["u1-3.png"] } { avatar_url := none }
      "u1-11.png" "https://cdn/u1-11.png").1,
   (avatar_no_compensation_c7 { avatars := ["u1-3.png"] } { avatar_url := none }
      "u1-11.png" "https://cdn/u1-11.png").2.1⟩

/-! ## Expense creation and display (claim C9) -/

/-- Expenses.tsx lines 63-72: the new-expense form state, including the
user-entered date. -/
structure ExpenseFormData where
  amount : String
  description : String
  date : String
  category : String
  payment_method : String
  payee : String
  program_id : String
  status : String
  deriving DecidableEq

/-- The columns Expenses.tsx's createMutation actually writes (lines
148-157): there is no date column among them. -/
structure ExpenseInsertPayload where
  amount : Option ℚ
  description : String
  category : String
  payment_method : String
  payee : String
  program_id : Option String
  approval_status : String
  user_id : String
  deriving DecidableEq

/-- Expenses.tsx lines 144-158 (createMutation's mutationFn): the insert
payload built from the form.  The form's date field is not read. -/
def createExpenseMutationFn (userId : String) (form : ExpenseFormData) :
    ExpenseInsertPayload :=
  { amount := jsParseFloat form.amount,
    description := form.description,
    category := form.category,
    payment_method := form.payment_method,
    payee := form.payee,
    program_id := if form.program_id = "" then none else some form.program_id,
    approval_status := form.status,
    user_id := userId }

/-- An expense row as fetched by Expenses.tsx's query (lines 84-105),
including the joined program name and the server-assigned created_at. -/
structure FetchedExpenseRow where
  id : String
  amount : ℚ
  description : String
  category : String
  payment_method : String
  payee : String
  program_id : Option String
  approval_status : Option String
  user_id : String
  created_at : String
  programs_name : Option String
  deriving DecidableEq

/-- The expense as displayed after the query transform. -/
structure DisplayedExpense where
  id : String
  amount : ℚ
  description : String
  category : String
  payment_method : String
  payee : String
  program_id : Option String
  user_id : String
  created_at : String
  program_name : Option String
  date : String
  status : String
  deriving DecidableEq

/-- Expenses.tsx lines 113-118: the fetched row is decorated with
`program_name = expense.programs?.name || null`,
`date = expense.created_at.split('T')[0]` (the part before the first T) and
`status = expense.approval_status || "pending"`. -/
def transformExpense (row : FetchedExpenseRow) : DisplayedExpense :=
  { id := row.id, amount := row.amount, description := row.description,
    category := row.category, payment_method := row.payment_method,
    payee := row.payee, program_id := row.program_id, user_id := row.user_id,
    created_at := row.created_at,
    program_name :=
      match row.programs_name with
      | none => none
      | some n => if n = "" then none else some n,
    date := String.mk (row.created_at.toList.takeWhile (fun c => c ≠ 'T')),
    status := jsStrOr row.approval_status "pending" }

lemma takeWhile_ne_append (d t : List Char) (h : 'T' ∉ d) :
    (d ++ 'T' :: t).takeWhile (fun c => c ≠ 'T') = d := by
  induction d with
  | nil => simp [List.takeWhile_cons]
  | cons c d ih =>
    have hc : c ≠ 'T' := fun hct => h (hct ▸ List.mem_cons_self c d)
    have hd : 'T' ∉ d := fun hmem => h (List.mem_cons_of_mem c hmem)
    rw [List.cons_append, List.takeWhile_cons, if_pos (by simp [hc]), ih hd]

/-- Claim C9: the date collected by the expense creation form is never
written — the insert payload is unchanged under any replacement of the
form's date — and the date displayed for a fetched expense is the part of
the server-assigned created_at timestamp before the T separator, regardless
of any user-entered date. -/
theorem expense_date_ignored_c9 :
    (∀ (userId : String) (form : ExpenseFormData) (d : String),
      createExpenseMutationFn userId { form with date := d } =
        createExpenseMutationFn userId form) ∧
    (∀ (row : FetchedExpenseRow) (d t : List Char),
      row.created_at = String.mk (d ++ 'T' :: t) → 'T' ∉ d →
      (transformExpense row).date = String.mk d) := by
  constructor
  · intro userId form d
    rfl
  · intro row d t hrow hd
    show String.mk (row.created_at.toList.takeWhile (fun c => c ≠ 'T')) = _
    rw [hrow]
    show String.mk ((d ++ 'T' :: t).takeWhile (fun c => c ≠ 'T')) = _
    rw [takeWhile_ne_append d t hd]

/-- A concrete fetched expense row. -/
def demoFetchedExpense : FetchedExpenseRow :=
  { id := "e1", amount := 3, description := "cables",
    category := "Equipment", payment_method := "Cash", payee := "ACME",
    program_id := none, approval_status := none, user_id := "u1",
    created_at := "2024-05-06T12:00:00", programs_name := none }

/-- A concrete expense form. -/
def demoExpenseForm : ExpenseFormData :=
  { amount := "3", description := "cables", date := "2024-05-06",
    category := "Equipment", payment_method := "Cash", payee := "ACME",
    program_id := "", status := "pending" }

/-- Witness for claim C9: replacing the concrete form's date leaves the
payload unchanged, and the concrete row displays the date part of its
created_at. -/
theorem expense_date_ignored_c9_witness :
    (demoFetchedExpense.created_at =
        String.mk ("2024-05-06".toList ++ 'T' :: "12:00:00".toList) ∧
      'T' ∉ "2024-05-06".toList) ∧
    createExpenseMutationFn "u1" { demoExpenseForm with date := "1999-12-31" } =
      createExpenseMutationFn "u1" demoExpenseForm ∧
    (transformExpense demoFetchedExpense).date = String.mk "2024-05-06".toList :=
  ⟨⟨by decide, by decide⟩,
   expense_date_ignored_c9.1 "u1" demoExpenseForm "1999-12-31",
   expense_date_ignored_c9.2 demoFetchedExpense "2024-05-06".toList
     "12:00:00".toList (by decide) (by decide)⟩

/-! ## Funding form amount handling (claim C10) -/

/-- part_000 lines 577-584: the funding form state; amount is numeric. -/
structure FundingFormData where
  source : String
  amount : ℚ
  type : String
  contact_name : String
  contact_email : String
  program_id : Option String
  deriving DecidableEq

/-- part_000 lines 727-734: the input change handler.  For the amount field
it stores `parseFloat(value) || 0` — a NaN (or parsed 0) is coerced to 0;
every other text field stores the raw string. -/
def handleInputChange (name value : String) (formData : FundingFormData) :
    FundingFormData :=
  if name = "amount" then
    { formData with amount := jsNumOr (jsParseFloat value) 0 }
  else if name = "source" then { formData with source := value }
  else if name = "contact_name" then { formData with contact_name := value }
  else if name = "contact_email" then { formData with contact_email := value }
  else formData

/-- The insert payload of part_000's createFunding (lines 656-662): the form
data spread plus the user id. -/
structure FundingInsertPayload where
  source : String
  amount : ℚ
  type : String
  contact_name : String
  contact_email : String
  program_id : Option String
  user_id : String
  deriving DecidableEq

/-- part_000 lines 656-662: createFunding's mutationFn inserts
`{...data, user_id}`. -/
def createFundingMutationFn (userId : String) (data : FundingFormData) :
    FundingInsertPayload :=
  { source := data.source, amount := data.amount, type := data.type,
    contact_name := data.contact_name, contact_email := data.contact_email,
    program_id := data.program_id, user_id := userId }

/-- part_000 lines 777-780: the add-funding submit handler mutates with the
current form data unconditionally (no validation). -/
def handleAddSubmit (userId : String) (formData : FundingFormData) :
    Option FundingInsertPayload :=
  some (createFundingMutationFn userId formData)

/-- Claim C10: an amount input whose parseFloat is NaN (for example the
empty string) is coerced to 0 rather than rejected, and submitting then
issues a funding insert whose amount is 0. -/
theorem funding_nan_amount_c10 (form : FundingFormData) (s : String)
    (h : jsParseFloat s = none) :
    (handleInputChange "amount" s form).amount = 0 ∧
    ∀ userId, handleAddSubmit userId (handleInputChange "amount" s form) =
      some { source := form.source, amount := 0, type := form.type,
             contact_name := form.contact_name,
             contact_email := form.contact_email,
             program_id := form.program_id, user_id := userId } := by
  have hform : handleInputChange "amount" s form = { form with amount := 0 } := by
    show { form with amount := jsNumOr (jsParseFloat s) 0 } = _
    rw [h, jsNumOr_none]
  rw [hform]
  exact ⟨rfl, fun userId => rfl⟩

/-- A concrete funding form. -/
def demoFundingForm : FundingFormData :=
  { source := "Gov", amount := 5, type := "Grant",
    contact_name := "", contact_email := "", program_id := none }

/-- Witness for claim C10: the empty amount input parses to NaN, is stored
as 0, and submitting issues the insert with amount 0. -/
theorem funding_nan_amount_c10_witness :
    jsParseFloat "" = none ∧
    (handleInputChange "amount" "" demoFundingForm).amount = 0 ∧
    handleAddSubmit "u1" (handleInputChange "amount" "" demoFundingForm) =
      some { source := "Gov", amount := 0, type := "Grant",
             contact_name := "", contact_email := "",
             program_id := none, user_id := "u1" } :=
  ⟨by decide,
   (funding_nan_amount_c10 demoFundingForm "" (by decide)).1,
   (funding_nan_amount_c10 demoFundingForm "" (by decide)).2 "u1"⟩

end CreatorReactor
